import Mathlib

/-!
Verification of the Job Execution & Notification Core of `rocky_api_server.py`.

The server keeps two module-level dictionaries, `active_jobs : job_id -> job dict`
and `active_processes : job_id -> Popen handle`, a list of websocket connections
to which events are fanned out, and runs each job through the coroutine
`run_rocky_process` while `/cancel/{job_id}` may interleave at the coroutine's
`await` points.  We embed the state shallowly: dictionaries become association
lists with unique keys, `datetime.now()` becomes a logical clock `now : Nat`
that every atomic segment advances, the websocket fan-out becomes an
append-only event list, and the filesystem under `VIDEOS_DIR` becomes a list of
file paths (component lists).  `run_rocky_process` is split at its `await`
suspension points into three atomic segments (`_start`: lines 182-207, one
`_line` per output line: lines 210-230, `_finish`: lines 232-264 including the
`finally` block), so that a `cancel_job` call can be interleaved exactly where
the asyncio scheduler could run it.
-/

namespace RockyApi

/-- The job record created in `execute_rocky` (rocky_api_server.py lines 141-154). -/
structure Job where
  job_id : String
  status : String
  progress : Nat
  mode : String
  theme : Option String
  started_at : Nat
  completed_at : Option Nat
  output_path : String
  logs : List String
  videos_generated : Nat
  error : Option String
  user_id : Option String
deriving Repr, DecidableEq

/-- A descendant of the spawned process, as enumerated by
`psutil.Process(pid).children(recursive=True)`.  `killable` records whether a
`kill()` call on it succeeds or raises; `alive` whether it is still running. -/
structure ChildProc where
  pid : Nat
  killable : Bool
  alive : Bool
deriving Repr, DecidableEq

/-- The `subprocess.Popen` handle stored in `active_processes`. -/
structure Proc where
  pid : Nat
  children : List ChildProc
  killable : Bool
  alive : Bool
deriving Repr, DecidableEq

/-- Events sent through `notify_websockets` / the websocket endpoint. -/
inductive Event where
  | job_started (job_id : String) (mode : String) (theme : Option String)
  | job_progress (job_id : String) (progress : Nat) (log : String)
  | job_completed (job_id : String) (status : String) (videos_generated : Nat)
  | connected (active_jobs : Nat)
deriving Repr, DecidableEq

/-- An `HTTPException(status_code, detail)` raised by a request handler. -/
structure HTTPError where
  status_code : Nat
  detail : String
deriving Repr, DecidableEq

/-- The module-level mutable state of the server.  `fs` is the set of files
under `VIDEOS_DIR`, each as its list of path components relative to
`VIDEOS_DIR`; `events` is the ordered log of everything published to
subscribers; `now` is the logical clock read by `datetime.now()`. -/
structure ServerState where
  active_jobs : List (String × Job)
  active_processes : List (String × Proc)
  events : List Event
  now : Nat
  fs : List (List String)
deriving Repr, DecidableEq

/-! ### Python-dict operations on association lists -/

/-- `d[k]` / `d.get(k)`: first binding of `k`. -/
def dictLookup {α : Type} (k : String) : List (String × α) → Option α
  | [] => none
  | (k', v) :: rest => if k' = k then some v else dictLookup k rest

/-- `d[k] = v`: replace the binding in place if the key exists (Python dicts
keep insertion order on re-assignment), otherwise append. -/
def dictInsert {α : Type} (k : String) (v : α) : List (String × α) → List (String × α)
  | [] => [(k, v)]
  | (k', v') :: rest => if k' = k then (k, v) :: rest else (k', v') :: dictInsert k v rest

/-- `del d[k]`. -/
def dictRemove {α : Type} (k : String) (m : List (String × α)) : List (String × α) :=
  m.filter (fun p => p.1 != k)

/-- Mutation of the record object a key is bound to (Python mutates the dict
value in place, e.g. `job["status"] = ...` through the `job` reference). -/
def dictUpdate {α : Type} (k : String) (f : α → α) : List (String × α) → List (String × α)
  | [] => []
  | (k', v) :: rest => if k' = k then (k', f v) :: rest else (k', v) :: dictUpdate k f rest

/-! ### String helpers (substring membership and `str.strip()`) -/

/-- Whether the first list is a prefix of the second. -/
def hasPrefixChars : List Char → List Char → Bool
  | [], _ => true
  | _ :: _, [] => false
  | c :: cs, d :: ds => c == d && hasPrefixChars cs ds

/-- Whether `pat` occurs as a contiguous run inside the second list. -/
def hasInfixChars (pat : List Char) : List Char → Bool
  | [] => hasPrefixChars pat []
  | c :: cs => hasPrefixChars pat (c :: cs) || hasInfixChars pat cs

/-- Python's `pat in s` substring test. -/
def containsSub (s pat : String) : Bool := hasInfixChars pat.data s.data

/-- Python's `s.endswith(pat)`. -/
def endsWithStr (s pat : String) : Bool := hasPrefixChars pat.data.reverse s.data.reverse

/-- Python's `s.strip()`: drop leading and trailing whitespace. -/
def pyStrip (s : String) : String :=
  ⟨((s.data.dropWhile Char.isWhitespace).reverse.dropWhile Char.isWhitespace).reverse⟩

/-! ### Progress heuristic and artifact counting -/

/-- The inline progress heuristic of `run_rocky_process`
(rocky_api_server.py lines 215-222): an ordered `if/elif` chain of substring
triggers; a matching trigger ASSIGNS its value, a non-matching line keeps the
previous progress. -/
def updateProgress (line : String) (old : Nat) : Nat :=
  if containsSub line "Processing" then 30
  else if containsSub line "Downloading" then 50
  else if containsSub line "Segmenting" then 70
  else if containsSub line "Completed" || containsSub line "Success" then 90
  else old

/-- Whether a path (component list) names an `.mp4` file. -/
def isMp4File (path : List String) : Bool :=
  match path.getLast? with
  | some name => endsWithStr name ".mp4"
  | none => false

/-- `len(list(Path(VIDEOS_DIR).glob("**/*.mp4")))` (line 239): count every
`.mp4` file anywhere under `VIDEOS_DIR`, at any depth. -/
def countMp4 (fs : List (List String)) : Nat := (fs.filter isMp4File).length

/-- Modelled from the spec: "computes `videos_generated` by inspecting the
external output area" read as counting the `.mp4` artifacts lying under THE
JOB'S OWN output directory `VIDEOS_DIR/job_id` (the job's `output_path`,
line 149).  Stated only for comparison with `countMp4`, which is what the
code computes. -/
def countArtifactsInJobArea (job_id : String) (fs : List (List String)) : Nat :=
  (fs.filter (fun p => p.head? == some job_id && isMp4File p)).length

/-! ### notify_websockets -/

/-- `notify_websockets` (lines 382-395): deliver the event to every live
subscriber; we record the published stream. -/
def notify_websockets (e : Event) (st : ServerState) : ServerState :=
  { st with events := st.events ++ [e] }

/-! ### execute_rocky (lines 118-176) -/

/-- Response body of `/execute`. -/
structure ExecResponse where
  success : Bool
  job_id : String
  message : String
  status_url : String
deriving Repr, DecidableEq

/-- Command construction in `execute_rocky` (lines 129-138); `none` models the
`HTTPException(400, "Invalid mode")`.  Note Python's `request.theme or
"peliculas"`: an empty theme string is falsy and also falls back. -/
def buildCmd (mode : String) (theme : Option String) : Option (List String) :=
  if mode = "test" then some ["python", "rocky_complete_video_pipeline.py", "--test"]
  else if mode = "single" then
    some ["python", "rocky_complete_video_pipeline.py", "--single",
      match theme with
      | some t => if t = "" then "peliculas" else t
      | none => "peliculas"]
  else if mode = "batch" then some ["python", "rocky_complete_video_pipeline.py", "--batch"]
  else none

/-- The fresh job record built at lines 141-154. -/
def mkJob (mode : String) (theme : Option String) (user_id : Option String)
    (job_id : String) (now : Nat) : Job :=
  { job_id := job_id
    status := "pending"
    progress := 0
    mode := mode
    theme := theme
    started_at := now
    completed_at := none
    output_path := "data/videos/" ++ job_id
    logs := []
    videos_generated := 0
    error := none
    user_id := user_id }

/-- `execute_rocky` (lines 118-176): validate the mode, create the job record,
store it with `active_jobs[job_id] = job` (an unconditional dict assignment),
publish `job_started`, and return the success response.  The generated
`uuid.uuid4()` value is passed in as `job_id`. -/
def execute_rocky (mode : String) (theme : Option String) (user_id : Option String)
    (job_id : String) (st : ServerState) : ServerState × Except HTTPError ExecResponse :=
  match buildCmd mode theme with
  | none => (st, .error ⟨400, "Invalid mode"⟩)
  | some _cmd =>
    let job := mkJob mode theme user_id job_id st.now
    let st1 := { st with active_jobs := dictInsert job_id job st.active_jobs, now := st.now + 1 }
    let st2 := notify_websockets (.job_started job_id mode theme) st1
    (st2, .ok { success := true, job_id := job_id,
                message := "Job started in " ++ mode ++ " mode",
                status_url := "/status/" ++ job_id })

/-! ### run_rocky_process, split at its await points -/

/-- First atomic segment of `run_rocky_process` (lines 182-207): set
`status = "processing"`, `progress = 10`, spawn the process and store it in
`active_processes`. -/
def run_rocky_process_start (j : String) (proc : Proc) (st : ServerState) : ServerState :=
  match dictLookup j st.active_jobs with
  | none => st
  | some _ =>
    { st with
      active_jobs := dictUpdate j
        (fun job => { job with status := "processing", progress := 10 }) st.active_jobs
      active_processes := dictInsert j proc st.active_processes
      now := st.now + 1 }

/-- One iteration of the output loop (lines 210-230): append the stripped line
to `logs`, run the progress heuristic, publish a `job_progress` event carrying
the updated progress, then suspend at the `await`. -/
def run_rocky_process_line (j : String) (line : String) (st : ServerState) : ServerState :=
  match dictLookup j st.active_jobs with
  | none => st
  | some job =>
    let newProgress := updateProgress line job.progress
    let st1 := { st with
      active_jobs := dictUpdate j
        (fun job => { job with logs := job.logs ++ [pyStrip line],
                               progress := updateProgress line job.progress }) st.active_jobs
      now := st.now + 1 }
    notify_websockets (.job_progress j newProgress (pyStrip line)) st1

/-- Tail of `run_rocky_process` (lines 232-264): `process.wait()`, set the
terminal fields from the return code, then the `finally` block: stamp
`completed_at`, drop the process handle, publish `job_completed` with the
job's current status and `videos_generated`.  `rc` is the observed
`process.returncode`. -/
def run_rocky_process_finish (j : String) (rc : Int) (st : ServerState) : ServerState :=
  match dictLookup j st.active_jobs with
  | none => st
  | some job =>
    let job2 :=
      if rc = 0 then
        { job with status := "completed", progress := 100,
                   videos_generated := countMp4 st.fs, completed_at := some st.now }
      else
        { job with status := "failed",
                   error := some ("Process exited with code " ++ toString rc),
                   completed_at := some st.now }
    let st1 := { st with
      active_jobs := dictUpdate j (fun _ => job2) st.active_jobs
      active_processes := dictRemove j st.active_processes
      now := st.now + 1 }
    notify_websockets (.job_completed j job2.status job2.videos_generated) st1

/-- The output loop over a list of lines. -/
def run_rocky_process_lines (j : String) (lines : List String) (st : ServerState) : ServerState :=
  lines.foldl (fun s l => run_rocky_process_line j l s) st

/-- A full uninterrupted run of `run_rocky_process`: start, the per-line loop,
then the finishing segment with the process's natural return code. -/
def run_rocky_process (j : String) (proc : Proc) (lines : List String) (rc : Int)
    (st : ServerState) : ServerState :=
  run_rocky_process_finish j rc
    (run_rocky_process_lines j lines (run_rocky_process_start j proc st))

/-! ### cancel_job (lines 316-349) -/

/-- Response body of `/cancel/{job_id}` when no exception is raised. -/
structure CancelResponse where
  success : Bool
  message : String
deriving Repr, DecidableEq

/-- The `for child in parent.children(recursive=True): child.kill()` loop
(lines 332-333).  The loop is inside one `try`: the first child whose `kill()`
raises aborts the whole handler, so the result is an error carrying the
partially-killed children list (children before the failure are dead, the
failing child and all later ones untouched). -/
def killChildren : List ChildProc → Except (List ChildProc) (List ChildProc)
  | [] => .ok []
  | c :: cs =>
    if c.killable then
      match killChildren cs with
      | .ok cs' => .ok ({ c with alive := false } :: cs')
      | .error cs' => .error ({ c with alive := false } :: cs')
    else .error (c :: cs)

/-- `cancel_job` (lines 316-349): 404 on an unknown id; if a live process
handle exists, kill the children then the parent inside one `try` — any kill
failure raises `HTTPException(500, ...)` and skips the status update — then
mark the job `cancelled`, stamp `completed_at`, drop the handle and return
success; with no live handle, report "Job not running" and change nothing. -/
def cancel_job (j : String) (st : ServerState) : ServerState × Except HTTPError CancelResponse :=
  match dictLookup j st.active_jobs with
  | none => (st, .error ⟨404, "Job not found"⟩)
  | some _ =>
    match dictLookup j st.active_processes with
    | none => (st, .ok { success := false, message := "Job not running" })
    | some proc =>
      match killChildren proc.children with
      | .error cs =>
        ({ st with
            active_processes := dictUpdate j (fun p => { p with children := cs }) st.active_processes
            now := st.now + 1 },
         .error ⟨500, "kill failed"⟩)
      | .ok cs =>
        if proc.killable then
          ({ st with
              active_jobs := dictUpdate j
                (fun job => { job with status := "cancelled", completed_at := some st.now })
                st.active_jobs
              active_processes := dictRemove j st.active_processes
              now := st.now + 1 },
           .ok { success := true, message := "Job cancelled" })
        else
          ({ st with
              active_processes := dictUpdate j (fun p => { p with children := cs }) st.active_processes
              now := st.now + 1 },
           .error ⟨500, "kill failed"⟩)

/-- A run of `run_rocky_process` with a `/cancel/{job_id}` request interleaved
at the loop's suspension point after `k` lines.  If the cancellation succeeded
the process was killed, so `process.wait()` observes the kill status `-9`
instead of the natural return code `rc`. -/
def run_rocky_process_cancelled (j : String) (proc : Proc) (lines : List String) (k : Nat)
    (rc : Int) (st : ServerState) : ServerState :=
  let st1 := run_rocky_process_lines j (lines.take k) (run_rocky_process_start j proc st)
  let c := cancel_job j st1
  let rcEff : Int :=
    match c.2 with
    | .ok r => if r.success then -9 else rc
    | .error _ => rc
  run_rocky_process_finish j rcEff (run_rocky_process_lines j (lines.drop k) c.1)

/-! ### get_job_status (lines 267-288) -/

/-- The `JobStatus` response model (lines 82-93). -/
structure JobStatusView where
  job_id : String
  status : String
  progress : Nat
  mode : String
  theme : Option String
  started_at : Nat
  completed_at : Option Nat
  output_path : String
  logs : List String
  videos_generated : Nat
  error : Option String
deriving Repr, DecidableEq

/-- `get_job_status` (lines 267-288): 404 on an unknown id, otherwise a
snapshot whose `logs` is `job["logs"][-20:]` — the last (at most) 20 entries —
while the job record itself keeps the full list. -/
def get_job_status (j : String) (st : ServerState) : Except HTTPError JobStatusView :=
  match dictLookup j st.active_jobs with
  | none => .error ⟨404, "Job not found"⟩
  | some job =>
    .ok { job_id := job.job_id
          status := job.status
          progress := job.progress
          mode := job.mode
          theme := job.theme
          started_at := job.started_at
          completed_at := job.completed_at
          output_path := job.output_path
          logs := job.logs.drop (job.logs.length - 20)
          videos_generated := job.videos_generated
          error := job.error }

deriving instance DecidableEq for Except

/-- Projection of an `Except` result to its success value. -/
def okView {ε α : Type} : Except ε α → Option α
  | .ok v => some v
  | .error _ => none

/-- A run of `run_rocky_process` with an optional `/cancel/{job_id}` request
interleaved at one of the loop's suspension points. -/
def run_with_possible_cancel (j : String) (proc : Proc) (lines : List String)
    (cancelAt : Option Nat) (rc : Int) (st : ServerState) : ServerState :=
  match cancelAt with
  | none => run_rocky_process j proc lines rc st
  | some k => run_rocky_process_cancelled j proc lines k rc st

/-! ### Association-list lemmas -/

theorem dictLookup_update_self {α : Type} (k : String) (f : α → α) (m : List (String × α)) :
    dictLookup k (dictUpdate k f m) = (dictLookup k m).map f := by
  induction m with
  | nil => rfl
  | cons p rest ih =>
    obtain ⟨k', v⟩ := p
    by_cases h : k' = k
    · simp [dictUpdate, dictLookup, h]
    · simp [dictUpdate, dictLookup, h, ih]

theorem dictLookup_insert_self {α : Type} (k : String) (v : α) (m : List (String × α)) :
    dictLookup k (dictInsert k v m) = some v := by
  induction m with
  | nil => simp [dictInsert, dictLookup]
  | cons p rest ih =>
    obtain ⟨k', v'⟩ := p
    by_cases h : k' = k
    · simp [dictInsert, dictLookup, h]
    · simp [dictInsert, dictLookup, h, ih]

theorem dictLookup_mem {α : Type} (k : String) (v : α) (m : List (String × α))
    (h : dictLookup k m = some v) : (k, v) ∈ m := by
  induction m with
  | nil => simp [dictLookup] at h
  | cons p rest ih =>
    obtain ⟨k', v'⟩ := p
    by_cases hk : k' = k
    · simp [dictLookup, hk] at h
      subst hk h
      exact List.mem_cons_self _ _
    · simp [dictLookup, hk] at h
      exact List.mem_cons_of_mem _ (ih h)

/-! ### Characterization of the run segments -/

theorem run_start_lookup (j : String) (proc : Proc) (st : ServerState) (job : Job)
    (hj : dictLookup j st.active_jobs = some job) :
    dictLookup j (run_rocky_process_start j proc st).active_jobs
      = some { job with status := "processing", progress := 10 } := by
  simp [run_rocky_process_start, hj, dictLookup_update_self]

theorem run_line_lookup (j line : String) (st : ServerState) (job : Job)
    (hj : dictLookup j st.active_jobs = some job) :
    dictLookup j (run_rocky_process_line j line st).active_jobs
      = some { job with logs := job.logs ++ [pyStrip line],
                        progress := updateProgress line job.progress } := by
  simp [run_rocky_process_line, hj, notify_websockets, dictLookup_update_self]

theorem run_finish_lookup (j : String) (rc : Int) (st : ServerState) (job : Job)
    (hj : dictLookup j st.active_jobs = some job) :
    dictLookup j (run_rocky_process_finish j rc st).active_jobs
      = some (if rc = 0 then
                { job with status := "completed", progress := 100,
                           videos_generated := countMp4 st.fs, completed_at := some st.now }
              else
                { job with status := "failed",
                           error := some ("Process exited with code " ++ toString rc),
                           completed_at := some st.now }) := by
  by_cases hrc : rc = 0 <;>
    simp [run_rocky_process_finish, hj, notify_websockets, dictLookup_update_self, hrc]

theorem run_finish_events (j : String) (rc : Int) (st : ServerState) (job : Job)
    (hj : dictLookup j st.active_jobs = some job) :
    (run_rocky_process_finish j rc st).events
      = st.events ++ [Event.job_completed j
          (if rc = 0 then "completed" else "failed")
          (if rc = 0 then countMp4 st.fs else job.videos_generated)] := by
  by_cases hrc : rc = 0 <;>
    simp [run_rocky_process_finish, hj, notify_websockets, hrc]

theorem run_start_isSome (j : String) (proc : Proc) (st : ServerState)
    (h : (dictLookup j st.active_jobs).isSome) :
    (dictLookup j (run_rocky_process_start j proc st).active_jobs).isSome := by
  obtain ⟨job, hj⟩ := Option.isSome_iff_exists.mp h
  rw [run_start_lookup j proc st job hj]
  rfl

theorem run_line_isSome (j line : String) (st : ServerState)
    (h : (dictLookup j st.active_jobs).isSome) :
    (dictLookup j (run_rocky_process_line j line st).active_jobs).isSome := by
  obtain ⟨job, hj⟩ := Option.isSome_iff_exists.mp h
  rw [run_line_lookup j line st job hj]
  rfl

theorem run_lines_isSome (j : String) (lines : List String) :
    ∀ st : ServerState, (dictLookup j st.active_jobs).isSome →
      (dictLookup j (run_rocky_process_lines j lines st).active_jobs).isSome := by
  induction lines with
  | nil => intro st h; exact h
  | cons l ls ih =>
    intro st h
    exact ih _ (run_line_isSome j l st h)

theorem cancel_jobs_isSome (j : String) (st : ServerState)
    (h : (dictLookup j st.active_jobs).isSome) :
    (dictLookup j (cancel_job j st).1.active_jobs).isSome := by
  obtain ⟨job, hj⟩ := Option.isSome_iff_exists.mp h
  cases hp : dictLookup j st.active_processes with
  | none => simp [cancel_job, hj, hp]
  | some proc =>
    cases hk : killChildren proc.children with
    | error cs => simp [cancel_job, hj, hp, hk]
    | ok cs =>
      by_cases hkill : proc.killable
      · simp [cancel_job, hj, hp, hk, hkill, dictLookup_update_self]
      · simp [cancel_job, hj, hp, hk, hkill]

theorem cancel_events (j : String) (st : ServerState) :
    (cancel_job j st).1.events = st.events := by
  cases hj : dictLookup j st.active_jobs with
  | none => simp [cancel_job, hj]
  | some job =>
    cases hp : dictLookup j st.active_processes with
    | none => simp [cancel_job, hj, hp]
    | some proc =>
      cases hk : killChildren proc.children with
      | error cs => simp [cancel_job, hj, hp, hk]
      | ok cs =>
        by_cases hkill : proc.killable <;> simp [cancel_job, hj, hp, hk, hkill]

theorem run_start_fs (j : String) (proc : Proc) (st : ServerState) :
    (run_rocky_process_start j proc st).fs = st.fs := by
  cases hj : dictLookup j st.active_jobs <;> simp [run_rocky_process_start, hj]

theorem run_line_fs (j line : String) (st : ServerState) :
    (run_rocky_process_line j line st).fs = st.fs := by
  cases hj : dictLookup j st.active_jobs <;>
    simp [run_rocky_process_line, hj, notify_websockets]

theorem run_lines_fs (j : String) (lines : List String) :
    ∀ st : ServerState, (run_rocky_process_lines j lines st).fs = st.fs := by
  induction lines with
  | nil => intro st; rfl
  | cons l ls ih =>
    intro st
    rw [show run_rocky_process_lines j (l :: ls) st
          = run_rocky_process_lines j ls (run_rocky_process_line j l st) from rfl,
        ih, run_line_fs]

/-! ### Concrete scenario states -/

/-- A freshly submitted test job with id `"j1"`. -/
def job0 : Job := mkJob "test" none none "j1" 0

/-- A spawned process with no children whose kills succeed. -/
def proc0 : Proc := { pid := 100, children := [], killable := true, alive := true }

/-- Server state right after submitting `job0`: one pending job, no live
process, clock at 1. -/
def st0 : ServerState :=
  { active_jobs := [("j1", job0)], active_processes := [], events := [], now := 1, fs := [] }

/-- The state just after `/cancel/j1` succeeded against the freshly started
supervision loop: status `cancelled`, `completed_at` stamped at clock 2, the
process handle removed, while `run_rocky_process` is still suspended. -/
def raceCancelledState : ServerState :=
  (cancel_job "j1" (run_rocky_process_start "j1" proc0 st0)).1

/-- The job record inside `raceCancelledState`. -/
def raceCancelledJob : Job :=
  { job0 with status := "cancelled", progress := 10, completed_at := some 2 }

/-- Helper for C2: whenever the finishing segment of `run_rocky_process`
leaves a job `completed`, it also left its progress at exactly 100 (the two
fields are written in the same atomic segment, and the `failed` branch never
produces the `completed` status). -/
theorem finish_completed_progress (j : String) (rc : Int) (st : ServerState)
    (h : (dictLookup j st.active_jobs).isSome)
    (hc : (dictLookup j (run_rocky_process_finish j rc st).active_jobs).map Job.status
            = some "completed") :
    (dictLookup j (run_rocky_process_finish j rc st).active_jobs).map Job.progress
      = some 100 := by
  obtain ⟨job, hj⟩ := Option.isSome_iff_exists.mp h
  rw [run_finish_lookup j rc st job hj] at hc ⊢
  by_cases hrc : rc = 0
  · simp [hrc]
  · rw [if_neg hrc] at hc
    simp at hc

/-! ### C1 — status only moves forward / terminal states are absorbing -/

/-- Claim C1, counterexample: a cancellation request that wins the race does
NOT make the later transition get dropped.  Concretely, start a job, let
`/cancel/j1` run at the supervision loop's first suspension point (the job is
then observed with status `cancelled`), and let the loop resume: the killed
process reports a nonzero exit status and the loop unconditionally overwrites
the terminal `cancelled` state with `failed`.  So a job whose status is
`cancelled` IS subsequently observed as `failed`, refuting the claim. -/
theorem C1_counterexample :
    ((dictLookup "j1" raceCancelledState.active_jobs).map Job.status = some "cancelled")
    ∧ ((dictLookup "j1"
          (run_with_possible_cancel "j1" proc0 [] (some 0) 0 st0).active_jobs).map Job.status
        = some "failed") := by decide

/-- Claim C1 (amended): status does move `pending -> processing -> terminal`,
but terminal states are not absorbing under the race: the supervision loop's
final status update is applied unconditionally, so when a cancellation request
was applied first, the loop's later transition still overwrites it and a job
whose status is `cancelled` is subsequently observed as `failed` — the LATER
update wins, not the earlier one. -/
theorem C1_later_transition_overwrites_cancelled (st : ServerState) (j : String) (job : Job)
    (rc : Int) (hj : dictLookup j st.active_jobs = some job)
    (_hcancelled : job.status = "cancelled") (hrc : rc ≠ 0) :
    (dictLookup j (run_rocky_process_finish j rc st).active_jobs).map Job.status
      = some "failed" := by
  rw [run_finish_lookup j rc st job hj, if_neg hrc]
  rfl

/-- Witness for C1's amended theorem at the concrete race state. -/
theorem C1_later_transition_overwrites_cancelled_witness :
    (dictLookup "j1"
        (run_rocky_process_finish "j1" (-9) raceCancelledState).active_jobs).map Job.status
      = some "failed" :=
  C1_later_transition_overwrites_cancelled raceCancelledState "j1" raceCancelledJob (-9)
    (by decide) (by decide) (by decide)

/-! ### C2 — progress monotonicity while processing, and 100 at completion -/

/-- State after the processing job has printed a `Downloading` line: progress 50. -/
def progressDecreaseState1 : ServerState :=
  run_rocky_process_line "j1" "Downloading clip" (run_rocky_process_start "j1" proc0 st0)

/-- State after a subsequent `Processing` line: progress drops back to 30. -/
def progressDecreaseState2 : ServerState :=
  run_rocky_process_line "j1" "Processing clip" progressDecreaseState1

/-- Claim C2, counterexample: progress is NOT non-decreasing while
`processing`.  The heuristic assigns each trigger's value outright
(`job["progress"] = 30` etc., lines 215-222), so a `Downloading` line (50)
followed by a `Processing` line (30) lowers the stored progress from 50 to 30
while the job is still `processing`. -/
theorem C2_counterexample :
    ((dictLookup "j1" progressDecreaseState1.active_jobs).map Job.status = some "processing")
    ∧ ((dictLookup "j1" progressDecreaseState1.active_jobs).map Job.progress = some 50)
    ∧ ((dictLookup "j1" progressDecreaseState2.active_jobs).map Job.status = some "processing")
    ∧ ((dictLookup "j1" progressDecreaseState2.active_jobs).map Job.progress = some 30) := by
  decide

/-- Claim C2 (amended): while `processing`, each matching output line assigns
its trigger's classified value to progress outright — which can lower it — but
the second half of the claim holds: over any modeled run of
`run_rocky_process` (with or without an interleaved cancellation), once
`status == completed` the progress equals exactly 100. -/
theorem C2_progress_is_100_when_completed (j : String) (proc : Proc) (lines : List String)
    (cancelAt : Option Nat) (rc : Int) (st : ServerState)
    (h : (dictLookup j st.active_jobs).isSome)
    (hc : (dictLookup j
            (run_with_possible_cancel j proc lines cancelAt rc st).active_jobs).map Job.status
          = some "completed") :
    (dictLookup j
        (run_with_possible_cancel j proc lines cancelAt rc st).active_jobs).map Job.progress
      = some 100 := by
  cases cancelAt with
  | none =>
    exact finish_completed_progress j rc _
      (run_lines_isSome _ _ _ (run_start_isSome _ _ _ h)) hc
  | some k =>
    exact finish_completed_progress j _ _
      (run_lines_isSome _ _ _
        (cancel_jobs_isSome _ _ (run_lines_isSome _ _ _ (run_start_isSome _ _ _ h)))) hc

/-- Witness for C2's amended theorem on a concrete completed run. -/
theorem C2_progress_is_100_when_completed_witness :
    (dictLookup "j1"
        (run_with_possible_cancel "j1" proc0 ["Completed ok"] none 0 st0).active_jobs).map
      Job.progress = some 100 :=
  C2_progress_is_100_when_completed "j1" proc0 ["Completed ok"] none 0 st0
    (by decide) (by decide)

/-! ### C3 — completed_at assigned exactly once -/

/-- Claim C3, counterexample: `completed_at` is NOT assigned exactly once.  In
the cancellation race, `cancel_job` stamps `completed_at` (here with clock
value 2) when it marks the job `cancelled`, and then the supervision loop's
`finally` block (line 254) runs unconditionally and stamps it AGAIN (clock
value 3), a second assignment after the first terminal transition. -/
theorem C3_counterexample :
    ((dictLookup "j1" raceCancelledState.active_jobs).map Job.completed_at = some (some 2))
    ∧ ((dictLookup "j1"
          (run_with_possible_cancel "j1" proc0 [] (some 0) 0 st0).active_jobs).map
        Job.completed_at = some (some 3)) := by decide

/-- Claim C3 (amended): `completed_at` is assigned on the first terminal
transition, but the supervision loop's `finally` block re-stamps it
unconditionally: for a job cancelled mid-run (whose `completed_at` is already
set to some earlier instant), the loop's cleanup assigns `completed_at` a
second time, overwriting it with the later timestamp. -/
theorem C3_cleanup_restamps_completed_at (st : ServerState) (j : String) (job : Job)
    (rc : Int) (t : Nat) (hj : dictLookup j st.active_jobs = some job)
    (hc : job.completed_at = some t) (ht : t ≠ st.now) :
    ((dictLookup j (run_rocky_process_finish j rc st).active_jobs).map Job.completed_at
        = some (some st.now))
    ∧ some st.now ≠ job.completed_at := by
  constructor
  · rw [run_finish_lookup j rc st job hj]
    by_cases hrc : rc = 0 <;> simp [hrc]
  · simp only [hc, ne_eq, Option.some.injEq]
    exact fun hEq => ht hEq.symm

/-- Witness for C3's amended theorem at the concrete race state. -/
theorem C3_cleanup_restamps_completed_at_witness :
    ((dictLookup "j1"
        (run_rocky_process_finish "j1" (-9) raceCancelledState).active_jobs).map
      Job.completed_at = some (some raceCancelledState.now))
    ∧ some raceCancelledState.now ≠ raceCancelledJob.completed_at :=
  C3_cleanup_restamps_completed_at raceCancelledState "j1" raceCancelledJob (-9) 2
    (by decide) (by decide) (by decide)

/-! ### C4 — exactly one job_completed event per terminal transition -/

/-- Claim C4, counterexample: the terminal transition performed by a
cancellation request publishes NO `job_completed` event — after `/cancel/j1`
has moved the job to `cancelled`, the published event stream is still empty —
and the single `job_completed` event eventually published (by the supervision
loop's `finally` block) carries status `failed`, not the `cancelled`
transition's status. -/
theorem C4_counterexample :
    (raceCancelledState.events = [])
    ∧ ((dictLookup "j1" raceCancelledState.active_jobs).map Job.status = some "cancelled")
    ∧ ((run_with_possible_cancel "j1" proc0 [] (some 0) 0 st0).events
        = [Event.job_completed "j1" "failed" 0]) := by decide

/-- Claim C4 (amended): exactly one `job_completed` event per job RUN is
published, namely by the supervision loop's cleanup, carrying the status that
segment computed (`completed` or `failed`) and the job's `videos_generated`;
a cancellation request itself publishes no event at all, so a cancelled job's
eventual `job_completed` event comes from the later cleanup and does not carry
`cancelled`. -/
theorem C4_single_completed_event (st st' : ServerState) (j j' : String) (job : Job)
    (rc : Int) (hj : dictLookup j st.active_jobs = some job) :
    ((run_rocky_process_finish j rc st).events
        = st.events ++ [Event.job_completed j (if rc = 0 then "completed" else "failed")
            (if rc = 0 then countMp4 st.fs else job.videos_generated)])
    ∧ (cancel_job j' st').1.events = st'.events :=
  ⟨run_finish_events j rc st job hj, cancel_events j' st'⟩

/-- Witness for C4's amended theorem at concrete states. -/
theorem C4_single_completed_event_witness :
    ((run_rocky_process_finish "j1" 2 st0).events
        = st0.events ++ [Event.job_completed "j1"
            (if (2 : Int) = 0 then "completed" else "failed")
            (if (2 : Int) = 0 then countMp4 st0.fs else job0.videos_generated)])
    ∧ (cancel_job "j1" st0).1.events = st0.events :=
  C4_single_completed_event st0 st0 "j1" "j1" job0 2 (by decide)

/-! ### C5 — best-effort process-tree kill -/

/-- Helper: the kill loop aborts at the first child whose `kill()` raises;
children before it are dead, the failing child and all later children are
untouched. -/
theorem killChildren_first_failure (pre : List ChildProc) (bad : ChildProc)
    (post : List ChildProc) (hpre : ∀ c ∈ pre, c.killable = true)
    (hbad : bad.killable = false) :
    killChildren (pre ++ bad :: post)
      = .error (pre.map (fun c => { c with alive := false }) ++ bad :: post) := by
  induction pre with
  | nil => simp [killChildren, hbad]
  | cons c cs ih =>
    have hc : c.killable = true := hpre c (by simp)
    have ih' := ih (fun d hd => hpre d (by simp [hd]))
    simp [killChildren, hc, ih']

/-- A child whose `kill()` raises (e.g. `psutil.AccessDenied`). -/
def childBad : ChildProc := { pid := 201, killable := false, alive := true }

/-- A child whose `kill()` would succeed. -/
def childOk : ChildProc := { pid := 202, killable := true, alive := true }

/-- A spawned process with the failing child first in the enumeration order. -/
def procC5 : Proc := { pid := 200, children := [childBad, childOk], killable := true, alive := true }

/-- The mid-run job record for the C5 scenario. -/
def jobC5 : Job := { job0 with status := "processing", progress := 10 }

/-- A server state with `j1` mid-run: status `processing`, handle attached. -/
def stC5 : ServerState :=
  { active_jobs := [("j1", jobC5)]
    active_processes := [("j1", procC5)]
    events := []
    now := 5
    fs := [] }

/-- Claim C5, counterexample: the kill is NOT best-effort.  With a process
whose first enumerated child cannot be killed, the single `try` around the
kill loop (lines 327-347) aborts the whole handler with `HTTPException(500)`:
the job does NOT transition to `cancelled` (status still `processing`,
`completed_at` still unset), the parent process is still alive, and the
remaining child was never killed. -/
theorem C5_counterexample :
    ((cancel_job "j1" stC5).2 = .error ⟨500, "kill failed"⟩)
    ∧ ((dictLookup "j1" (cancel_job "j1" stC5).1.active_jobs).map Job.status
        = some "processing")
    ∧ ((dictLookup "j1" (cancel_job "j1" stC5).1.active_jobs).map Job.completed_at
        = some none)
    ∧ ((dictLookup "j1" (cancel_job "j1" stC5).1.active_processes).map Proc.alive = some true)
    ∧ ((dictLookup "j1" (cancel_job "j1" stC5).1.active_processes).map Proc.children
        = some [childBad, childOk]) := by decide

/-- Claim C5 (amended): on a cancellation request the handler does iterate
over the descendant tree killing each child and then the parent, but NOT
best-effort: the first child whose kill fails makes the request abort with an
HTTP 500 error, the job does not transition to `cancelled` (its record is
completely unchanged), and the failing child, the children after it, and the
parent are all left unkilled. -/
theorem C5_kill_failure_aborts (st : ServerState) (j : String) (job : Job) (proc : Proc)
    (pre : List ChildProc) (bad : ChildProc) (post : List ChildProc)
    (hj : dictLookup j st.active_jobs = some job)
    (hp : dictLookup j st.active_processes = some proc)
    (hch : proc.children = pre ++ bad :: post)
    (hpre : ∀ c ∈ pre, c.killable = true)
    (hbad : bad.killable = false) :
    ((cancel_job j st).2 = .error ⟨500, "kill failed"⟩)
    ∧ ((cancel_job j st).1.active_jobs = st.active_jobs)
    ∧ (dictLookup j (cancel_job j st).1.active_processes
        = some { proc with
                  children := pre.map (fun c => { c with alive := false }) ++ bad :: post }) := by
  have hkill : killChildren proc.children
      = .error (pre.map (fun c => { c with alive := false }) ++ bad :: post) := by
    rw [hch]
    exact killChildren_first_failure pre bad post hpre hbad
  refine ⟨?_, ?_, ?_⟩ <;> simp [cancel_job, hj, hp, hkill, dictLookup_update_self]

/-- Witness for C5's amended theorem at the concrete state. -/
theorem C5_kill_failure_aborts_witness :
    ((cancel_job "j1" stC5).2 = .error ⟨500, "kill failed"⟩)
    ∧ ((cancel_job "j1" stC5).1.active_jobs = stC5.active_jobs)
    ∧ (dictLookup "j1" (cancel_job "j1" stC5).1.active_processes
        = some { procC5 with
                  children := ([] : List ChildProc).map (fun c => { c with alive := false })
                    ++ childBad :: [childOk] }) :=
  C5_kill_failure_aborts stC5 "j1" jobC5
    procC5 [] childBad [childOk] (by decide) (by decide) (by decide)
    (by intro c hc; simp at hc) (by decide)

/-! ### C6 — cancelling a job that is not processing is a no-op -/

/-- Invariant linking the two dictionaries: every attached process handle
belongs to a job whose status is `processing`.  It holds in every state our
trace segments reach: `run_rocky_process_start` attaches the handle in the
same atomic segment that sets status `processing`, and every transition out
of `processing` (the loop's cleanup, or a successful cancellation) detaches
the handle in its own atomic segment. -/
def procsAllProcessing (st : ServerState) : Prop :=
  ∀ p ∈ st.active_processes, (dictLookup p.1 st.active_jobs).map Job.status = some "processing"

/-- Claim C6 (confirmed): for a known job that is not currently `processing`
(pending, already terminal, or already cancelled earlier), `cancel_job` does
not raise: it returns `success = False` with the report "Job not running" and
returns the state completely unchanged — status, progress and `completed_at`
included. -/
theorem C6_cancel_not_processing_noop (st : ServerState) (j : String) (job : Job)
    (hj : dictLookup j st.active_jobs = some job)
    (hs : job.status ≠ "processing")
    (hinv : procsAllProcessing st) :
    cancel_job j st = (st, .ok { success := false, message := "Job not running" }) := by
  have hp : dictLookup j st.active_processes = none := by
    cases hp' : dictLookup j st.active_processes with
    | none => rfl
    | some proc =>
      have hmem := dictLookup_mem j proc st.active_processes hp'
      have hstat : (dictLookup j st.active_jobs).map Job.status = some "processing" :=
        hinv (j, proc) hmem
      rw [hj] at hstat
      simp at hstat
      exact absurd hstat hs
  simp [cancel_job, hj, hp]

/-- An already-terminal job record. -/
def jobTerminalW : Job := { job0 with status := "completed", progress := 100, completed_at := some 2 }

/-- A state holding one already-terminal job and no live process. -/
def stTerminalW : ServerState :=
  { active_jobs := [("j1", jobTerminalW)]
    active_processes := []
    events := []
    now := 3
    fs := [] }

/-- Witness for C6's theorem: cancelling an already-completed job. -/
theorem C6_cancel_not_processing_noop_witness :
    cancel_job "j1" stTerminalW
      = (stTerminalW, .ok { success := false, message := "Job not running" }) :=
  C6_cancel_not_processing_noop stTerminalW "j1" jobTerminalW
    (by decide) (by decide)
    (by intro p hp; simp [stTerminalW] at hp)

/-! ### C7 — duplicate job id on create -/

/-- The terminal record already stored under the id `"j1"`. -/
def jobDupOld : Job := { job0 with status := "completed", progress := 100, videos_generated := 5 }

/-- A state already holding a (terminal) job under the id `"j1"`. -/
def stDup : ServerState :=
  { active_jobs := [("j1", jobDupOld)]
    active_processes := []
    events := []
    now := 9
    fs := [] }

/-- Claim C7, counterexample: `execute_rocky` performs no duplicate check at
all — there is no `DuplicateIdError` anywhere in the code.  Submitting while
the generated id already maps to a completed job succeeds (HTTP 200 with
`success = True`) and silently replaces the stored record with the fresh
pending one. -/
theorem C7_counterexample :
    ((dictLookup "j1" stDup.active_jobs).map Job.status = some "completed")
    ∧ ((execute_rocky "test" none none "j1" stDup).2
        = .ok { success := true, job_id := "j1", message := "Job started in test mode",
                status_url := "/status/j1" })
    ∧ (dictLookup "j1" (execute_rocky "test" none none "j1" stDup).1.active_jobs
        = some (mkJob "test" none none "j1" 9)) := by decide

/-- Claim C7 (amended): when the generated job id already exists in the
registry the create operation does not fail: `active_jobs[job_id] = job`
(line 156) is an unconditional dict assignment, so the submission succeeds
and the existing record is silently overwritten by the fresh pending one. -/
theorem C7_duplicate_id_overwrites (st : ServerState) (mode : String)
    (theme user_id : Option String) (jid : String) (cmd : List String)
    (hcmd : buildCmd mode theme = some cmd)
    (_hdup : (dictLookup jid st.active_jobs).isSome) :
    ((execute_rocky mode theme user_id jid st).2
        = .ok { success := true, job_id := jid,
                message := "Job started in " ++ mode ++ " mode",
                status_url := "/status/" ++ jid })
    ∧ (dictLookup jid (execute_rocky mode theme user_id jid st).1.active_jobs
        = some (mkJob mode theme user_id jid st.now)) := by
  constructor
  · simp [execute_rocky, hcmd]
  · simp [execute_rocky, hcmd, notify_websockets, dictLookup_insert_self]

/-- Witness for C7's amended theorem at the concrete duplicate state. -/
theorem C7_duplicate_id_overwrites_witness :
    ((execute_rocky "test" none none "j1" stDup).2
        = .ok { success := true, job_id := "j1",
                message := "Job started in " ++ "test" ++ " mode",
                status_url := "/status/" ++ "j1" })
    ∧ (dictLookup "j1" (execute_rocky "test" none none "j1" stDup).1.active_jobs
        = some (mkJob "test" none none "j1" stDup.now)) :=
  C7_duplicate_id_overwrites stDup "test" none none "j1"
    ["python", "rocky_complete_video_pipeline.py", "--test"] (by decide) (by decide)

/-! ### C8 — nonzero exit code -/

/-- Claim C8 (confirmed): when the spawned process exits normally with a
nonzero code `rc`, the supervision loop marks the job `failed`, sets `error`
to the message naming the exit code (`"Process exited with code " + rc`), and
leaves `progress` exactly as it stood after the last output line processed
while the job was `processing`. -/
theorem C8_nonzero_exit_fails (j : String) (proc : Proc) (lines : List String) (rc : Int)
    (st : ServerState) (job : Job)
    (hj : dictLookup j st.active_jobs = some job) (hrc : rc ≠ 0) :
    ((dictLookup j (run_rocky_process j proc lines rc st).active_jobs).map Job.status
        = some "failed")
    ∧ ((dictLookup j (run_rocky_process j proc lines rc st).active_jobs).map Job.error
        = some (some ("Process exited with code " ++ toString rc)))
    ∧ ((dictLookup j (run_rocky_process j proc lines rc st).active_jobs).map Job.progress
        = (dictLookup j (run_rocky_process_lines j lines
            (run_rocky_process_start j proc st)).active_jobs).map Job.progress) := by
  have hpre : (dictLookup j (run_rocky_process_lines j lines
      (run_rocky_process_start j proc st)).active_jobs).isSome :=
    run_lines_isSome _ _ _ (run_start_isSome _ _ _ (by simp [hj]))
  obtain ⟨job', hj'⟩ := Option.isSome_iff_exists.mp hpre
  have hfin := run_finish_lookup j rc _ job' hj'
  rw [if_neg hrc] at hfin
  refine ⟨?_, ?_, ?_⟩ <;> simp [run_rocky_process, hfin, hj']

/-- Witness for C8 on a concrete run exiting with code 2. -/
theorem C8_nonzero_exit_fails_witness :
    ((dictLookup "j1" (run_rocky_process "j1" proc0 ["working"] 2 st0).active_jobs).map
        Job.status = some "failed")
    ∧ ((dictLookup "j1" (run_rocky_process "j1" proc0 ["working"] 2 st0).active_jobs).map
        Job.error = some (some ("Process exited with code " ++ toString (2 : Int))))
    ∧ ((dictLookup "j1" (run_rocky_process "j1" proc0 ["working"] 2 st0).active_jobs).map
        Job.progress
        = (dictLookup "j1" (run_rocky_process_lines "j1" ["working"]
            (run_rocky_process_start "j1" proc0 st0)).active_jobs).map Job.progress) :=
  C8_nonzero_exit_fails "j1" proc0 ["working"] 2 st0 job0 (by decide) (by decide)

/-! ### C9 — artifact count at completion -/

/-- A state whose filesystem holds one `.mp4` OUTSIDE the job's own output
directory (`data/videos/other/a.mp4`, while the job's area is
`data/videos/j1/`). -/
def stC9 : ServerState :=
  { active_jobs := [("j1", job0)]
    active_processes := []
    events := []
    now := 1
    fs := [["other", "a.mp4"]] }

/-- Claim C9, counterexample: `videos_generated` is NOT computed from the
job's own output area.  The code globs `VIDEOS_DIR/**/*.mp4` (line 239) over
the WHOLE shared videos directory: a run that produced nothing in its own
area (`countArtifactsInJobArea "j1" = 0`) completes with
`videos_generated = 1` because another job's `.mp4` lies elsewhere under
`VIDEOS_DIR`. -/
theorem C9_counterexample :
    ((dictLookup "j1" (run_rocky_process "j1" proc0 [] 0 stC9).active_jobs).map Job.status
        = some "completed")
    ∧ ((dictLookup "j1" (run_rocky_process "j1" proc0 [] 0 stC9).active_jobs).map
        Job.videos_generated = some 1)
    ∧ (countArtifactsInJobArea "j1" stC9.fs = 0) := by decide

/-- Claim C9 (amended): on a normal exit with code 0 the job transitions to
`completed` and `progress` is forced to 100, but `videos_generated` is set by
counting ALL `.mp4` files recursively under the shared `VIDEOS_DIR`, not just
the artifacts inside that job's own output area. -/
theorem C9_completion_counts_global_mp4 (j : String) (proc : Proc) (lines : List String)
    (st : ServerState) (job : Job)
    (hj : dictLookup j st.active_jobs = some job) :
    ((dictLookup j (run_rocky_process j proc lines 0 st).active_jobs).map Job.status
        = some "completed")
    ∧ ((dictLookup j (run_rocky_process j proc lines 0 st).active_jobs).map Job.progress
        = some 100)
    ∧ ((dictLookup j (run_rocky_process j proc lines 0 st).active_jobs).map
        Job.videos_generated = some (countMp4 st.fs)) := by
  have hpre : (dictLookup j (run_rocky_process_lines j lines
      (run_rocky_process_start j proc st)).active_jobs).isSome :=
    run_lines_isSome _ _ _ (run_start_isSome _ _ _ (by simp [hj]))
  obtain ⟨job', hj'⟩ := Option.isSome_iff_exists.mp hpre
  have hfin := run_finish_lookup j 0 _ job' hj'
  rw [if_pos (show (0 : Int) = 0 from rfl)] at hfin
  have hfs : (run_rocky_process_lines j lines (run_rocky_process_start j proc st)).fs
      = st.fs := by
    rw [run_lines_fs, run_start_fs]
  refine ⟨?_, ?_, ?_⟩ <;> simp [run_rocky_process, hfin, hfs]

/-- Witness for C9's amended theorem at the concrete filesystem. -/
theorem C9_completion_counts_global_mp4_witness :
    ((dictLookup "j1" (run_rocky_process "j1" proc0 [] 0 stC9).active_jobs).map Job.status
        = some "completed")
    ∧ ((dictLookup "j1" (run_rocky_process "j1" proc0 [] 0 stC9).active_jobs).map
        Job.progress = some 100)
    ∧ ((dictLookup "j1" (run_rocky_process "j1" proc0 [] 0 stC9).active_jobs).map
        Job.videos_generated = some (countMp4 stC9.fs)) :=
  C9_completion_counts_global_mp4 "j1" proc0 [] stC9 job0 (by decide)

/-! ### C10 — status snapshot exposes only the last 20 log lines -/

/-- Claim C10 (confirmed): a status query returns a snapshot whose `logs`
field is exactly the last (at most) 20 entries of the job's internal log
sequence (`job["logs"][-20:]`, line 285) — in particular exactly 20 entries
once the job has produced more than 20 lines, so earlier positions are never
part of any snapshot — while the internal sequence itself is retained in full
and only ever grows by appending the next stripped output line. -/
theorem C10_status_snapshot_logs_tail (j : String) (st : ServerState) (job : Job)
    (line : String) (hj : dictLookup j st.active_jobs = some job) :
    ((okView (get_job_status j st)).map JobStatusView.logs
        = some (job.logs.drop (job.logs.length - 20)))
    ∧ (job.logs.length > 20 →
        (okView (get_job_status j st)).map (fun v => v.logs.length) = some 20)
    ∧ ((dictLookup j (run_rocky_process_line j line st).active_jobs).map Job.logs
        = some (job.logs ++ [pyStrip line])) := by
  refine ⟨?_, ?_, ?_⟩
  · simp [get_job_status, hj, okView]
  · intro hlen
    simp only [get_job_status, hj, okView, Option.map_some]
    simp [List.length_drop]
    omega
  · rw [run_line_lookup j line st job hj]
    rfl

/-- A job that has already produced 21 output lines. -/
def jobLogsW : Job := { job0 with status := "processing", logs := List.replicate 21 "line" }

/-- A state holding `jobLogsW`. -/
def stLogsW : ServerState :=
  { active_jobs := [("j1", jobLogsW)]
    active_processes := []
    events := []
    now := 1
    fs := [] }

/-- Witness for C10 at a job with 21 log lines. -/
theorem C10_status_snapshot_logs_tail_witness :
    ((okView (get_job_status "j1" stLogsW)).map JobStatusView.logs
        = some (jobLogsW.logs.drop (jobLogsW.logs.length - 20)))
    ∧ ((okView (get_job_status "j1" stLogsW)).map (fun v => v.logs.length) = some 20)
    ∧ ((dictLookup "j1" (run_rocky_process_line "j1" "tail" stLogsW).active_jobs).map
        Job.logs = some (jobLogsW.logs ++ [pyStrip "tail"])) := by
  have h := C10_status_snapshot_logs_tail "j1" stLogsW jobLogsW "tail" (by decide)
  exact ⟨h.1, h.2.1 (by decide), h.2.2⟩

end RockyApi
